import Mathlib

/-
  Verification of the pytest-profiling plugin
  (src/pytest-profiling/pytest_profiling.py).

  Shallow embedding: the plugin's pure helper `clean_filename` becomes a
  Lean function on strings; the stateful lifecycle hooks become functions
  on an explicit `Profiling` state that also return a trace of the
  externally visible effects they perform (profiler allocation, profiler
  runs, statistics loads/merges/dumps, the external svg pipeline).
  Exceptions become `Except PyExc`.
-/

namespace PytestProfiling

/-- The characters of the Python literal set `'/?<>\:*|"'`.  In Python,
`'\:'` is not a recognised escape, so the backslash stays: the set holds
the nine characters `/ ? < > \ : * | "`. -/
def forbidden_chars : List Char := "/?<>\\:*|\"".data

/-- Per-character step of `clean_filename`'s generator expression:
`c if c not in forbidden_chars and ord(c) < 127 else '_'`. -/
def sanitize_char (c : Char) : Char :=
  if c ∉ forbidden_chars ∧ c.toNat < 127 then c else '_'

/-- `clean_filename(s)`: join the sanitized characters of `s`. -/
def clean_filename (s : String) : String :=
  ⟨s.data.map sanitize_char⟩

/-- Python exceptions as far as the plugin distinguishes them: an
`OSError` with an errno, or any other exception (e.g. the
`AssertionError` of a failing test). -/
inductive PyExc
  | osError (errno : Nat)
  | otherExc (msg : String)
deriving DecidableEq

/-- Which profiler object an effect refers to: the shared accumulator
(`self.shared_profiler`) or a fresh per-test `cProfile.Profile()`. -/
inductive ProfRef
  | shared
  | fresh
deriving DecidableEq

/-- Externally visible effects performed by the hooks. -/
inductive Effect
  /-- `cProfile.Profile()` allocated for `self.shared_profiler` in `__init__`. -/
  | newSharedProfiler
  /-- a fresh `cProfile.Profile()` allocated for one test. -/
  | newProfiler
  /-- `profiler.runcall(__multicall__.execute)`. -/
  | runcall (p : ProfRef)
  /-- `profiler.dump_stats(path)` on a `cProfile.Profile` object. -/
  | profDump (p : ProfRef) (path : String)
  /-- `pstats.Stats(path)`. -/
  | statsLoad (path : String)
  /-- `combined.add(path)`. -/
  | statsAdd (path : String)
  /-- `combined.dump_stats(path)` on a `pstats.Stats` object. -/
  | statsDump (path : String)
  /-- `pipes.Template.copy(inp, outp)`, i.e. `os.system` on the
  `gprof2dot | dot -Tsvg` pipeline; `exitStatus` is the value `os.system`
  returns (and the plugin discards). -/
  | pipelineRun (inp : String) (outp : String) (exitStatus : Nat)
deriving DecidableEq

/-- The state of a `Profiling` plugin instance. `shared_profiler` is
`true` when the field holds a profiler object, `false` when it is
`None`. -/
structure Profiling where
  svg : Bool
  combined_only : Bool
  prof_names : List String
  svg_name : Option String
  combined_name : Option String
  shared_profiler : Bool
deriving DecidableEq

/-- `Profiling.__init__(svg, combined_only)`: initial state plus the
allocation effect of the shared profiler in combined-only mode. -/
def Profiling.init (svg combined_only : Bool) : Profiling × List Effect :=
  ({ svg := svg
     combined_only := combined_only
     prof_names := []
     svg_name := none
     combined_name := none
     shared_profiler := combined_only },
   if combined_only then [Effect.newSharedProfiler] else [])

/-- `pytest_sessionstart`: `try: os.makedirs("prof") except OSError: pass`.
The argument is the outcome of `os.makedirs("prof")`; the result is what
leaves the hook.  Every `OSError` (any errno) is caught; anything else
propagates. -/
def pytest_sessionstart (mkdirs_result : Except PyExc Unit) : Except PyExc Unit :=
  match mkdirs_result with
  | Except.ok _ => Except.ok ()
  | Except.error (PyExc.osError _) => Except.ok ()
  | Except.error e => Except.error e

/-- `os.path.join("prof", clean_filename(name) + ".prof")`. -/
def prof_path (testName : String) : String :=
  "prof/" ++ clean_filename testName ++ ".prof"

/-- `pytest_pyfunc_call`: wrap the downstream call chain in a profiler.
`execResult` is the outcome of `__multicall__.execute` (a failing test
raises).  `profiler.runcall` re-raises that exception, so on failure the
hook exits before `dump_stats` / `prof_names.append`.  Returns what
leaves the hook (new state or exception) and the effects performed. -/
def pytest_pyfunc_call (st : Profiling) (testName : String)
    (execResult : Except PyExc Unit) : Except PyExc Profiling × List Effect :=
  let pn : Option String :=
    if st.combined_only then none else some (prof_path testName)
  let pref : ProfRef := if st.combined_only then ProfRef.shared else ProfRef.fresh
  let pre : List Effect :=
    (if st.combined_only then [] else [Effect.newProfiler]) ++ [Effect.runcall pref]
  match execResult with
  | Except.error e => (Except.error e, pre)
  | Except.ok _ =>
    match pn with
    | some p =>
      (Except.ok { st with prof_names := st.prof_names ++ [p] },
       pre ++ [Effect.profDump pref p])
    | none => (Except.ok st, pre)

/-- `os.path.join("prof", "combined.prof")`. -/
def combined_file : String := "prof/combined.prof"

/-- `os.path.join("prof", "combined.svg")`. -/
def combined_svg : String := "prof/combined.svg"

/-- What the local variable `combined` of `pytest_sessionfinish` holds:
a `cProfile.Profile` (the shared profiler) or a `pstats.Stats`. -/
inductive CombinedSrc
  | profiler
  | stats
deriving DecidableEq

/-- `pytest_sessionfinish`.  `pipelineExit` is the exit status
`os.system` reports for the `gprof2dot | dot` pipeline when the svg
branch runs; `pipes.Template.copy` returns it and the plugin ignores it,
so the hook itself never raises from the pipeline. -/
def pytest_sessionfinish (st : Profiling) (pipelineExit : Nat) :
    Except PyExc (Profiling × List Effect) :=
  let loadEffs : List Effect :=
    if st.combined_only then []
    else
      match st.prof_names with
      | [] => []
      | p :: ps => Effect.statsLoad p :: ps.map Effect.statsAdd
  let combined : Option CombinedSrc :=
    if st.combined_only then
      if st.shared_profiler then some CombinedSrc.profiler else none
    else
      match st.prof_names with
      | [] => none
      | _ :: _ => some CombinedSrc.stats
  match combined with
  | none => Except.ok (st, loadEffs)
  | some c =>
    let dumpEff : Effect :=
      match c with
      | CombinedSrc.profiler => Effect.profDump ProfRef.shared combined_file
      | CombinedSrc.stats => Effect.statsDump combined_file
    let st1 : Profiling := { st with combined_name := some combined_file }
    if st.svg then
      Except.ok ({ st1 with svg_name := some combined_svg },
        loadEffs ++ [dumpEff, Effect.pipelineRun combined_file combined_svg pipelineExit])
    else
      Except.ok (st1, loadEffs ++ [dumpEff])

/-- One line of `pytest_terminal_summary` output. -/
inductive SummaryOut
  /-- `Profiling (from {prof}):` -/
  | header (path : String)
  /-- `pstats.Stats(path, ...).strip_dirs().sort_stats('cumulative').print_stats(20)` -/
  | statsTable (path : String)
  /-- `SVG profile in {svg}.` -/
  | svgMessage (path : String)
deriving DecidableEq

/-- `pytest_terminal_summary`: what gets written to the terminal
reporter, in order. -/
def pytest_terminal_summary (st : Profiling) : List SummaryOut :=
  (match st.combined_name with
   | some p => [SummaryOut.header p, SummaryOut.statsTable p]
   | none => []) ++
  (match st.svg_name with
   | some s => [SummaryOut.svgMessage s]
   | none => [])

/-- The three boolean command-line options. -/
structure Config where
  profile : Bool
  profile_svg : Bool
  profile_combined_only : Bool
deriving DecidableEq

/-- `pytest_configure`: register a `Profiling` plugin iff `--profile` or
`--profile-svg` was given. -/
def pytest_configure (c : Config) : Option (Profiling × List Effect) :=
  if c.profile || c.profile_svg then
    some (Profiling.init c.profile_svg c.profile_combined_only)
  else
    none

/-- The host framework runs the per-test hook once per test; an exception
escaping the hook is caught by the host's call-phase wrapper (the test is
reported as failed) and the session continues with the same plugin
object.  `tests` pairs each test name with the outcome of its downstream
chain. -/
def runTests : Profiling → List (String × Except PyExc Unit) → Profiling × List Effect
  | st, [] => (st, [])
  | st, (n, r) :: rest =>
    let step := pytest_pyfunc_call st n r
    let st1 : Profiling :=
      match step.1 with
      | Except.ok s => s
      | Except.error _ => st
    let tail := runTests st1 rest
    (tail.1, step.2 ++ tail.2)

/-- A whole session: construction, all per-test hooks, session finish. -/
def fullRun (svg combined_only : Bool)
    (tests : List (String × Except PyExc Unit)) (pipelineExit : Nat) :
    Profiling × List Effect :=
  let ini := Profiling.init svg combined_only
  let mid := runTests ini.1 tests
  match pytest_sessionfinish mid.1 pipelineExit with
  | Except.ok fin => (fin.1, ini.2 ++ mid.2 ++ fin.2)
  | Except.error _ => (mid.1, ini.2 ++ mid.2)

/-- Projection of `pytest_sessionfinish` (which in fact never throws). -/
def finishResult (st : Profiling) (pipelineExit : Nat) : Profiling × List Effect :=
  match pytest_sessionfinish st pipelineExit with
  | Except.ok r => r
  | Except.error _ => (st, [])

/-- Is an effect a dump of the shared profiler? -/
def Effect.isSharedDump : Effect → Bool
  | Effect.profDump ProfRef.shared _ => true
  | _ => false

/-- Is an effect a dump of a fresh per-test profiler? -/
def Effect.isFreshDump : Effect → Bool
  | Effect.profDump ProfRef.fresh _ => true
  | _ => false

/-- Is an effect a write of the combined statistics file? -/
def Effect.isCombinedDump : Effect → Bool
  | Effect.profDump _ p => p == combined_file
  | Effect.statsDump p => p == combined_file
  | _ => false

/-- `Except.isOk`, specialised so everything stays computable. -/
def exOk {α β : Type} : Except α β → Bool
  | Except.ok _ => true
  | Except.error _ => false

/-- The plugin state right after `Profiling(svg=False, combined_only=False)`. -/
def stPerTest : Profiling := (Profiling.init false false).1

/-- The plugin state right after `Profiling(svg=False, combined_only=True)`. -/
def stCombined : Profiling := (Profiling.init false true).1

/-- A per-test-mode state with one recorded profile and svg requested. -/
def stSvgOne : Profiling :=
  { svg := true
    combined_only := false
    prof_names := ["prof/test_a.prof"]
    svg_name := none
    combined_name := none
    shared_profiler := false }

/-- A per-test-mode state with two recorded profiles. -/
def stTwo : Profiling :=
  { svg := false
    combined_only := false
    prof_names := ["prof/test_a.prof", "prof/test_b.prof"]
    svg_name := none
    combined_name := none
    shared_profiler := false }

/-! ### Helper lemmas -/

theorem sanitize_char_of_safe (c : Char) (h1 : c ∉ forbidden_chars)
    (h2 : c.toNat < 127) : sanitize_char c = c :=
  if_pos ⟨h1, h2⟩

theorem sanitize_char_underscore : sanitize_char '_' = '_' := by decide

theorem sanitize_char_idem (c : Char) :
    sanitize_char (sanitize_char c) = sanitize_char c := by
  by_cases h : c ∉ forbidden_chars ∧ c.toNat < 127
  · have hc : sanitize_char c = c := if_pos h
    rw [hc]
    exact hc
  · have hc : sanitize_char c = '_' := if_neg h
    rw [hc]
    exact sanitize_char_underscore

theorem map_sanitize_of_safe (l : List Char)
    (h : ∀ c ∈ l, c ∉ forbidden_chars ∧ c.toNat < 127) :
    l.map sanitize_char = l := by
  induction l with
  | nil => rfl
  | cons c cs ih =>
    rw [List.map_cons,
        sanitize_char_of_safe c (h c (List.mem_cons_self c cs)).1
          (h c (List.mem_cons_self c cs)).2,
        ih (fun d hd => h d (List.mem_cons_of_mem c hd))]

theorem pyfunc_call_combined (st : Profiling) (name : String)
    (r : Except PyExc Unit) (hco : st.combined_only = true) :
    pytest_pyfunc_call st name r =
      (r.map (fun _ => st), [Effect.runcall ProfRef.shared]) := by
  cases r <;> simp [pytest_pyfunc_call, hco, Except.map]

theorem pyfunc_call_per_test_ok (st : Profiling) (name : String)
    (hco : st.combined_only = false) :
    pytest_pyfunc_call st name (Except.ok ()) =
      (Except.ok { st with prof_names := st.prof_names ++ [prof_path name] },
       [Effect.newProfiler, Effect.runcall ProfRef.fresh,
        Effect.profDump ProfRef.fresh (prof_path name)]) := by
  simp [pytest_pyfunc_call, hco]

theorem pyfunc_call_per_test_error (st : Profiling) (name : String)
    (e : PyExc) (hco : st.combined_only = false) :
    pytest_pyfunc_call st name (Except.error e) =
      (Except.error e, [Effect.newProfiler, Effect.runcall ProfRef.fresh]) := by
  simp [pytest_pyfunc_call, hco]

theorem runTests_combined (st : Profiling) (hco : st.combined_only = true)
    (tests : List (String × Except PyExc Unit)) :
    runTests st tests =
      (st, tests.map (fun _ => Effect.runcall ProfRef.shared)) := by
  induction tests generalizing st with
  | nil => rfl
  | cons t rest ih =>
    obtain ⟨n, r⟩ := t
    cases r with
    | ok u =>
      simp [runTests, pyfunc_call_combined st n (Except.ok u) hco, Except.map,
        ih st hco]
    | error e =>
      simp [runTests, pyfunc_call_combined st n (Except.error e) hco, Except.map,
        ih st hco]

theorem runTests_all_ok (st : Profiling) (hco : st.combined_only = false)
    (names : List String) :
    (runTests st (names.map (fun n => (n, Except.ok ())))).1.prof_names =
      st.prof_names ++ names.map prof_path := by
  induction names generalizing st with
  | nil => simp [runTests]
  | cons n ns ih =>
    have hstep := pyfunc_call_per_test_ok st n hco
    have hco1 : ({ st with prof_names := st.prof_names ++ [prof_path n] }
        : Profiling).combined_only = false := hco
    simp [runTests, hstep, ih _ hco1]

theorem fullRun_combined (svg : Bool) (tests : List (String × Except PyExc Unit))
    (pipelineExit : Nat) :
    fullRun svg true tests pipelineExit =
      ({ svg := svg
         combined_only := true
         prof_names := []
         svg_name := if svg then some combined_svg else none
         combined_name := some combined_file
         shared_profiler := true },
       [Effect.newSharedProfiler] ++
         tests.map (fun _ => Effect.runcall ProfRef.shared) ++
         ([Effect.profDump ProfRef.shared combined_file] ++
           (if svg then
             [Effect.pipelineRun combined_file combined_svg pipelineExit]
            else []))) := by
  have hrt := runTests_combined
    { svg := svg
      combined_only := true
      prof_names := []
      svg_name := none
      combined_name := none
      shared_profiler := true } rfl tests
  cases svg <;>
    simp [fullRun, Profiling.init, hrt, pytest_sessionfinish]

theorem filter_map_const_none {α : Type} (l : List α) (e : Effect)
    (p : Effect → Bool) (hp : p e = false) :
    (l.map (fun _ => e)).filter p = [] := by
  induction l with
  | nil => rfl
  | cons a as ih => simp [List.filter, hp, ih]

/-! ### Theorems for the claims -/

/-- C1: `clean_filename` replaces each character that is forbidden
(`/ ? < > \ : * | "`) or has codepoint ≥ 127 by exactly one underscore,
and passes every other character through unchanged. -/
theorem clean_filename_replaces_forbidden (s : String) :
    (clean_filename s).data =
      s.data.map (fun c => if c ∈ forbidden_chars ∨ 127 ≤ c.toNat then '_' else c) := by
  show s.data.map sanitize_char = _
  congr 1
  funext c
  rw [sanitize_char]
  by_cases hf : c ∈ forbidden_chars
  · rw [if_neg (fun h => h.1 hf), if_pos (Or.inl hf)]
  · by_cases hlt : c.toNat < 127
    · rw [if_pos ⟨hf, hlt⟩, if_neg]
      rintro (h | h)
      · exact hf h
      · exact absurd hlt (Nat.not_lt.mpr h)
    · rw [if_neg (fun h => hlt h.2), if_pos (Or.inr (Nat.le_of_not_lt hlt))]

/-- C10: `clean_filename` is length-preserving. -/
theorem clean_filename_length (s : String) :
    (clean_filename s).length = s.length := by
  show (s.data.map sanitize_char).length = s.data.length
  simp

/-- C8: `clean_filename` is idempotent, and it is the identity on
already-safe ASCII names (no forbidden characters, all codepoints
< 127). -/
theorem clean_filename_idem (x : String) :
    clean_filename (clean_filename x) = clean_filename x ∧
    ((∀ c ∈ x.data, c ∉ forbidden_chars ∧ c.toNat < 127) → clean_filename x = x) := by
  constructor
  · show String.mk ((x.data.map sanitize_char).map sanitize_char) = _
    have hss : sanitize_char ∘ sanitize_char = sanitize_char := by
      funext c
      exact sanitize_char_idem c
    rw [List.map_map, hss]
    rfl
  · intro hsafe
    show String.mk (x.data.map sanitize_char) = x
    rw [map_sanitize_of_safe x.data hsafe]

/-- C8 witness: at the already-safe ASCII name `test_a`, `clean_filename`
is the identity and hence idempotent. -/
theorem clean_filename_idem_witness :
    clean_filename (clean_filename "test_a") = clean_filename "test_a" ∧
    clean_filename "test_a" = "test_a" :=
  ⟨(clean_filename_idem "test_a").1, (clean_filename_idem "test_a").2 (by decide)⟩

/-- C2 counterexample: `except OSError: pass` swallows every `OSError`,
not only the directory-already-exists one (errno 17, `EEXIST`): a
permission-denied error (errno 13, `EACCES`) from `os.makedirs` is also
ignored, so "ignored exactly when the prof directory already exists" is
false. -/
theorem sessionstart_not_only_eexist :
    ¬ (∀ e : PyExc,
        pytest_sessionstart (Except.error e) = Except.ok () ↔ e = PyExc.osError 17) := by
  intro h
  have h13 : PyExc.osError 13 = PyExc.osError 17 := (h (PyExc.osError 13)).mp rfl
  exact absurd h13 (by decide)

/-- C2 amended: at session start every `OSError` from `os.makedirs`
(whatever its errno) is ignored, while any non-`OSError` exception
propagates out of `pytest_sessionstart`. -/
theorem sessionstart_ignores_all_oserrors :
    (∀ n : Nat, pytest_sessionstart (Except.error (PyExc.osError n)) = Except.ok ()) ∧
    (∀ m : String,
      pytest_sessionstart (Except.error (PyExc.otherExc m)) =
        Except.error (PyExc.otherExc m)) ∧
    pytest_sessionstart (Except.ok ()) = Except.ok () :=
  ⟨fun _ => rfl, fun _ => rfl, rfl⟩

/-- C3 counterexample: with svg requested and one recorded profile, a
failing rendering pipeline (exit status 127, command not found) does not
make `pytest_sessionfinish` fail: the hook returns normally, records the
svg path, and merely logs the discarded exit status. -/
theorem sessionfinish_pipeline_failure_ignored :
    pytest_sessionfinish stSvgOne 127 =
      Except.ok
        ({ stSvgOne with
            combined_name := some combined_file
            svg_name := some combined_svg },
         [Effect.statsLoad "prof/test_a.prof", Effect.statsDump combined_file,
          Effect.pipelineRun combined_file combined_svg 127]) := rfl

/-- C3 amended: the exit status reported by `os.system` for the
`gprof2dot | dot` pipeline is discarded: `pytest_sessionfinish` never
raises, and the resulting plugin state is the same whatever the
pipeline's exit status. -/
theorem sessionfinish_discards_pipeline_status (st : Profiling) (e1 e2 : Nat) :
    exOk (pytest_sessionfinish st e1) = true ∧
    (pytest_sessionfinish st e1).map Prod.fst =
      (pytest_sessionfinish st e2).map Prod.fst := by
  obtain ⟨svg, co, pn, sn, cn, sp⟩ := st
  cases co <;> cases sp <;> cases svg <;> cases pn <;>
    simp [pytest_sessionfinish, exOk, Except.map]

/-- C4: at session finish, when not combined-only and the recorded files
are `p :: ps`, the combined statistics are built by loading `p` as the
base and folding in each element of `ps` in recorded order before the
dump; in combined-only mode the shared accumulator is the dumped
source. -/
theorem sessionfinish_combined_source (st : Profiling) (pipelineExit : Nat) :
    (∀ p ps, st.combined_only = false → st.prof_names = p :: ps →
      pytest_sessionfinish st pipelineExit =
        Except.ok
          ({ st with
              combined_name := some combined_file
              svg_name := if st.svg then some combined_svg else st.svg_name },
           (Effect.statsLoad p :: ps.map Effect.statsAdd) ++
             [Effect.statsDump combined_file] ++
             (if st.svg then
               [Effect.pipelineRun combined_file combined_svg pipelineExit]
              else []))) ∧
    (st.combined_only = true → st.shared_profiler = true →
      pytest_sessionfinish st pipelineExit =
        Except.ok
          ({ st with
              combined_name := some combined_file
              svg_name := if st.svg then some combined_svg else st.svg_name },
           [Effect.profDump ProfRef.shared combined_file] ++
             (if st.svg then
               [Effect.pipelineRun combined_file combined_svg pipelineExit]
              else []))) := by
  obtain ⟨svg, co, pn, sn, cn, sp⟩ := st
  constructor
  · rintro p ps rfl rfl
    cases svg <;> simp [pytest_sessionfinish]
  · rintro rfl rfl
    cases svg <;> simp [pytest_sessionfinish]

/-- C4 witness: a finish with two recorded profiles loads the first,
adds the second, and dumps the combined statistics. -/
theorem sessionfinish_combined_source_witness :
    pytest_sessionfinish stTwo 0 =
      Except.ok
        ({ stTwo with
            combined_name := some combined_file
            svg_name := if stTwo.svg then some combined_svg else stTwo.svg_name },
         (Effect.statsLoad "prof/test_a.prof" ::
            ["prof/test_b.prof"].map Effect.statsAdd) ++
           [Effect.statsDump combined_file] ++
           (if stTwo.svg then
             [Effect.pipelineRun combined_file combined_svg 0]
            else [])) :=
  (sessionfinish_combined_source stTwo 0).1 "prof/test_a.prof" ["prof/test_b.prof"] rfl rfl

/-- C5: in combined-only mode the per-test hook's only effect is running
the shared profiler (no dump, no recorded entry, state unchanged);
construction allocates exactly one shared accumulator; and over a whole
session the shared accumulator is dumped exactly once — at session
finish, to the combined file — while no per-test profiler is ever
dumped and no per-test entry is ever recorded. -/
theorem combined_only_invariants (st : Profiling) (name : String)
    (r : Except PyExc Unit) (svg : Bool)
    (tests : List (String × Except PyExc Unit)) (pipelineExit : Nat)
    (hco : st.combined_only = true) :
    pytest_pyfunc_call st name r =
      (r.map (fun _ => st), [Effect.runcall ProfRef.shared]) ∧
    (Profiling.init svg true).2 = [Effect.newSharedProfiler] ∧
    (fullRun svg true tests pipelineExit).2.filter Effect.isSharedDump =
      [Effect.profDump ProfRef.shared combined_file] ∧
    (fullRun svg true tests pipelineExit).2.filter Effect.isFreshDump = [] ∧
    (fullRun svg true tests pipelineExit).1.prof_names = [] := by
  have hshared := filter_map_const_none tests
    (Effect.runcall ProfRef.shared) Effect.isSharedDump rfl
  have hfresh := filter_map_const_none tests
    (Effect.runcall ProfRef.shared) Effect.isFreshDump rfl
  refine ⟨pyfunc_call_combined st name r hco, rfl, ?_, ?_, ?_⟩ <;>
    cases svg <;>
      simp [fullRun_combined, List.filter_append, hshared, hfresh,
        Effect.isSharedDump, Effect.isFreshDump, List.filter]

/-- C5 witness: a combined-only session with one passing test. -/
theorem combined_only_invariants_witness :
    pytest_pyfunc_call stCombined "t" (Except.ok ()) =
      ((Except.ok ()).map (fun _ => stCombined), [Effect.runcall ProfRef.shared]) ∧
    (Profiling.init false true).2 = [Effect.newSharedProfiler] ∧
    (fullRun false true [("t", Except.ok ())] 3).2.filter Effect.isSharedDump =
      [Effect.profDump ProfRef.shared combined_file] ∧
    (fullRun false true [("t", Except.ok ())] 3).2.filter Effect.isFreshDump = [] ∧
    (fullRun false true [("t", Except.ok ())] 3).1.prof_names = [] :=
  combined_only_invariants stCombined "t" (Except.ok ()) false
    [("t", Except.ok ())] 3 rfl

/-- C6: the combined statistics file is written at session finish iff a
per-test capture was recorded (non-combined-only) or the shared
accumulator exists (combined-only — always, since construction creates
it); with zero tests and profiling enabled without combined-only, the
whole session performs no effect at all and the terminal summary prints
nothing. -/
theorem combined_dump_iff (st : Profiling) (pipelineExit : Nat) (svg : Bool) :
    ((finishResult st pipelineExit).2.any Effect.isCombinedDump =
      (st.combined_only && st.shared_profiler ||
        !st.combined_only && !st.prof_names.isEmpty)) ∧
    (Profiling.init svg true).1.shared_profiler = true ∧
    (fullRun svg false [] pipelineExit).2 = [] ∧
    pytest_terminal_summary (fullRun svg false [] pipelineExit).1 = [] := by
  refine ⟨?_, rfl, rfl, rfl⟩
  obtain ⟨svg1, co, pn, sn, cn, sp⟩ := st
  cases co <;> cases sp <;> cases svg1 <;> cases pn <;>
    simp [finishResult, pytest_sessionfinish, Effect.isCombinedDump, List.any]

/-- C7 counterexample: in per-test mode, when the downstream execution
chain raises (a failing test), `profiler.runcall` re-raises before
`dump_stats`: the hook propagates the exception, persists nothing and
records nothing — not every executed test gets a statistics file. -/
theorem pyfunc_call_failure_skips_dump :
    pytest_pyfunc_call stPerTest "test_a" (Except.error (PyExc.otherExc "AssertionError")) =
      (Except.error (PyExc.otherExc "AssertionError"),
       [Effect.newProfiler, Effect.runcall ProfRef.fresh]) := rfl

/-- C7 amended: in per-test mode, when a test's downstream chain
completes successfully the hook persists its statistics to
`prof/<sanitized-name>.prof` and appends that path to the record list;
when the chain raises, the exception propagates with nothing persisted
or recorded.  Hence one statistics file per successfully completed
test. -/
theorem pyfunc_call_per_test_behaviour (st : Profiling) (name : String)
    (hco : st.combined_only = false) :
    pytest_pyfunc_call st name (Except.ok ()) =
      (Except.ok { st with prof_names := st.prof_names ++ [prof_path name] },
       [Effect.newProfiler, Effect.runcall ProfRef.fresh,
        Effect.profDump ProfRef.fresh (prof_path name)]) ∧
    (∀ e : PyExc,
      pytest_pyfunc_call st name (Except.error e) =
        (Except.error e, [Effect.newProfiler, Effect.runcall ProfRef.fresh])) ∧
    (∀ names : List String,
      (runTests st (names.map (fun n => (n, Except.ok ())))).1.prof_names =
        st.prof_names ++ names.map prof_path) :=
  ⟨pyfunc_call_per_test_ok st name hco,
   fun e => pyfunc_call_per_test_error st name e hco,
   fun names => runTests_all_ok st hco names⟩

/-- C7 witness: one passing test in per-test mode. -/
theorem pyfunc_call_per_test_behaviour_witness :
    pytest_pyfunc_call stPerTest "test_a" (Except.ok ()) =
      (Except.ok { stPerTest with
          prof_names := stPerTest.prof_names ++ [prof_path "test_a"] },
       [Effect.newProfiler, Effect.runcall ProfRef.fresh,
        Effect.profDump ProfRef.fresh (prof_path "test_a")]) :=
  (pyfunc_call_per_test_behaviour stPerTest "test_a" rfl).1

/-- C9: the plugin is registered iff `--profile` or `--profile-svg` was
given; `--profile-svg` alone enables profiling, `--profile-combined-only`
alone enables nothing. -/
theorem configure_registers_iff (c : Config) :
    ((pytest_configure c).isSome = (c.profile || c.profile_svg)) ∧
    pytest_configure
      { profile := false, profile_svg := true, profile_combined_only := false } =
      some (Profiling.init true false) ∧
    pytest_configure
      { profile := false, profile_svg := false, profile_combined_only := true } =
      none := by
  refine ⟨?_, rfl, rfl⟩
  obtain ⟨p, ps, pc⟩ := c
  cases p <;> cases ps <;> simp [pytest_configure]

end PytestProfiling
